import Mathlib

set_option maxHeartbeats 1000000

/-!
Shallow embedding of the ICMP gap-filling subsystem, the `UUID` generator and
the `FlagQueue` container of this repository, together with theorems settling
the specification claims about them.

Strings are modelled as Lean `String`/`List Char`; the random draws consumed by
`UUID::generate` are modelled as an explicit stream of natural numbers.
-/

/-- One step of `absl::StrReplaceAll` restricted to a single substitution pair,
scanning left to right and replacing non-overlapping occurrences.  `fuel`
bounds the recursion (each step consumes at least one character when the
pattern is non-empty). -/
def replaceAux (pat rep : List Char) : Nat → List Char → List Char
  | 0, s => s
  | fuel + 1, s =>
    match s with
    | [] => []
    | c :: rest =>
      if pat.isPrefixOf s then rep ++ replaceAux pat rep fuel (s.drop pat.length)
      else c :: replaceAux pat rep fuel rest

/-- `absl::StrReplaceAll(text, {{pat, rep}})`: replace every non-overlapping
occurrence of `pat` in `text` by `rep`, left to right.  An empty pattern
replaces nothing (no call site of this repository passes an empty pattern). -/
def strReplaceAll (text pat rep : String) : String :=
  if pat.isEmpty then text
  else String.mk (replaceAux pat.toList rep.toList text.toList.length text.toList)

/-- `FlagQueue::pop` (flag_queue.h): `at(0)` on the underlying vector throws on
an empty queue (modelled as `none`); otherwise the front element is returned
and `erase(begin())` removes it. -/
def FlagQueue.pop {α : Type} (q : List α) : Option (α × List α) :=
  match q with
  | [] => none
  | x :: xs => some (x, xs)

/-- The character that `stringstream << std::hex << n` produces for `n ≤ 15`:
a decimal digit for `n < 10`, a lowercase letter for `10 ≤ n ≤ 15`. -/
def hexChar (n : Nat) : Char :=
  if n < 10 then Char.ofNat (48 + n) else Char.ofNat (87 + n)

/-- The sixteen lowercase hexadecimal digit characters. -/
def lowerHexDigits : List Char :=
  ['0', '1', '2', '3', '4', '5', '6', '7', '8', '9']
    ++ ['a', 'b', 'c', 'd', 'e', 'f']

/-- A character is a lowercase hexadecimal digit. -/
def isLowerHexDigit (c : Char) : Prop := c ∈ lowerHexDigits

instance (c : Char) : Decidable (isLowerHexDigit c) :=
  inferInstanceAs (Decidable (c ∈ lowerHexDigits))

/-- `UUID::generate` (base/uuid.cc): the character sequence written to the
stringstream.  `g i` is the i-th draw of `dis` (uniform on `[0,15]`) and `d2`
the single draw of `dis2` (uniform on `[8,11]`); the loop bounds 8, 4, 3, 3
and 12 are the constants of the source. -/
def UUID.generate (g : Nat → Nat) (d2 : Nat) : List Char :=
  ((List.range 8).map fun i => hexChar (g i))
    ++ ['-'] ++ ((List.range 4).map fun i => hexChar (g (8 + i)))
    ++ ['-', '4'] ++ ((List.range 3).map fun i => hexChar (g (12 + i)))
    ++ ['-'] ++ [hexChar d2] ++ ((List.range 3).map fun i => hexChar (g (15 + i)))
    ++ ['-'] ++ ((List.range 12).map fun i => hexChar (g (18 + i)))

/-- `IcmpProperties::Status` (icmp_inlining.h): the four status values of a
gap.  The code defines no failure status. -/
inductive Status where
  | New
  | Guessed
  | MergedMyGap
  | FilledGapInText
deriving DecidableEq

/-- `IcmpGapType` (icmp_inlining.h). -/
inductive IcmpGapType where
  | None
  | Single
  | Merge
  | MergeAll
deriving DecidableEq

/-- The state names of the specification's resolution state machine
(spec §4.2), including the terminal `Failed` state that the specification
prescribes. -/
inductive SpecStatus where
  | Created
  | Guessed
  | Merged
  | Filled
  | Failed
deriving DecidableEq

/-- The correspondence between the code's status values and the
specification's state names (spec §4.2: Created/Guessed/Merged/Filled). -/
def statusToSpec : Status → SpecStatus
  | Status.New => SpecStatus.Created
  | Status.Guessed => SpecStatus.Guessed
  | Status.MergedMyGap => SpecStatus.Merged
  | Status.FilledGapInText => SpecStatus.Filled

/-- The mutable data that one `IcmpProperties::visit` step reads and writes:
the gap's status, the gap's own text (`gap_text`), the owning document's text
and the document's open-gap queue (`m_gaps`). -/
structure EngineState where
  status : Status
  gapText : String
  docText : String
  gaps : List String
deriving DecidableEq

/-- The environment of one `visit` step: the guesser's reply
(`IcmpConcludant::inform_guesser`), the gap type, whether
`gap_text.parentText` is non-null, whether `IcmpTextSet::getTextByID` finds
the document (a null result is dereferenced, i.e. undefined behaviour), the
document id (`text_id`), the gap id (`gap_id`) and the gap's
`replacement_text`. -/
structure VisitEnv where
  guess : String
  gapType : IcmpGapType
  parentTextPresent : Bool
  textFound : Bool
  textId : String
  gapId : String
  replacement : String

/-- `IcmpText::fill_gap(gapid, gaptext)` (icmp_text.cc lines 69-77): copy the
current text, `StrReplaceAll` the gap id string by the gap text, swap the view
to the result and return `true` unconditionally. -/
def IcmpText.fill_gap (docText gapid gaptext : String) : String × Bool :=
  (strReplaceAll docText gapid gaptext, true)

/-- Modelled from the spec: `IcmpText::erase_gapid` is declared in
icmp_text.h and called in icmp_inlining.cc, but its definition is absent from
src/.  The spec says commit removes the gap from `open_gaps()`; the call is
modelled as removing the given identifier from the open-gap sequence. -/
def IcmpText.erase_gapid (gaps : List String) (gapid : String) : List String :=
  gaps.erase gapid

/-- Modelled from the spec: `IcmpStringView::replaceAll` is declared in
icmp_string_view.h but its definition is absent from src/.  Per the spec's
Created-state action the provider's candidate text is received into the gap;
modelled as the gap text becoming the candidate. -/
def IcmpStringView.replaceAll (_old other : String) : String :=
  other

/-- `IcmpStringView::visited` (icmp_string_view.cc lines 58-62): stores the
property and assigns `parentProperty->status = Status::New`
unconditionally. -/
def IcmpStringView.visited (st : EngineState) : EngineState :=
  { st with status := Status.New }

/-- `IcmpProperties::fill_gap` (icmp_inlining.cc lines 45-50): look the
document up by `text_id` (a null result is dereferenced: `none`), call
`IcmpText::fill_gap` with the gap id and the gap's `replacement_text` (it
always returns `true`) and set the status to `FilledGapInText`. -/
def IcmpProperties.fill_gap (env : VisitEnv) (st : EngineState) : Option EngineState :=
  if env.textFound then
    some { st with
            docText := (IcmpText.fill_gap st.docText env.gapId env.replacement).fst,
            status := Status.FilledGapInText }
  else none

/-- The `switch (status)` body of `IcmpProperties::visit` (icmp_inlining.cc
lines 54-105): `New` takes the guesser's reply and advances to `Guessed` when
it is non-empty; `Guessed` advances to `MergedMyGap` for the gap types
`Single`, `Merge` and `MergeAll`; `MergedMyGap` fills the gap when
`parentText` is non-null; `FilledGapInText` looks the document up (a null
result is dereferenced: `none`) and calls `erase_gapid` with the document's
`text_id`. -/
def IcmpProperties.visitSwitch (env : VisitEnv) (st : EngineState) : Option EngineState :=
  match st.status with
  | Status.New =>
    if env.guess.length > 0 then
      some { st with
              gapText := IcmpStringView.replaceAll st.gapText env.guess,
              status := Status.Guessed }
    else
      some st
  | Status.Guessed =>
    match env.gapType with
    | IcmpGapType.Single => some { st with status := Status.MergedMyGap }
    | IcmpGapType.Merge => some { st with status := Status.MergedMyGap }
    | IcmpGapType.MergeAll => some { st with status := Status.MergedMyGap }
    | IcmpGapType.None => some st
  | Status.MergedMyGap =>
    if env.parentTextPresent then IcmpProperties.fill_gap env st
    else some st
  | Status.FilledGapInText =>
    if env.textFound then
      some { st with gaps := IcmpText.erase_gapid st.gaps env.textId }
    else none

/-- `IcmpProperties::visit` (icmp_inlining.cc lines 53-109): the `switch`
dispatch followed by the unconditional `gap_text.visited(this)` call. -/
def IcmpProperties.visit (env : VisitEnv) (st : EngineState) : Option EngineState :=
  (IcmpProperties.visitSwitch env st).map IcmpStringView.visited

/-- The mutable members of `IcmpUUID` that `merge_into` touches. -/
structure IcmpUUIDState where
  replacement_text : String
  m_last_instertion : String
deriving DecidableEq

/-- `IcmpUUID::merge_into(gapid, text)` (icmp_uuid.cc lines 102-111):
`StrReplaceAll` the gap id by the text inside `replacement_text`, record the
gap id as the last insertion and return `true` unconditionally. -/
def IcmpUUID.merge_into (st : IcmpUUIDState) (gapid text : String) : IcmpUUIDState × Bool :=
  ({ replacement_text := strReplaceAll st.replacement_text gapid text,
     m_last_instertion := gapid }, true)

/-- `std::string::substr(pos, count)`: throws `std::out_of_range` (`none`)
when `pos` exceeds the length, otherwise clamps `count` to the remainder. -/
def substrE (s : List Char) (pos cnt : Nat) : Option (List Char) :=
  if pos ≤ s.length then some ((s.drop pos).take cnt) else none

/-- The outcome of the scanning loop of `IcmpUUID::find_inserter_end`,
instrumented with two flags recording whether the branch matching the uuid at
offset `p+3` (icmp_uuid.cc line 55) and the end-position branch
(icmp_uuid.cc line 65) were ever entered. -/
structure FieOut where
  pos_start : Nat
  pos_end : Nat
  count : Nat
  hitMatch : Bool
  hitEnd : Bool
deriving DecidableEq

/-- The loop of `IcmpUUID::find_inserter_end` (icmp_uuid.cc lines 53-72).
`p` is the loop index, `fuel` the number of remaining iterations (the loop
runs for `size()` iterations), `ist`/`icnt`/`ps`/`pe`/`found` the local
variables `inserter_start`, `inserter_count`, `pos_start`, `pos_end` and
`found`.  A `substr` out-of-range throw propagates as `none`.  The decrement
of `inserter_start` in the last `_|` branch cannot underflow because that
branch requires `found` with `inserter_start ≠ 0`. -/
def fieGo (rt insId : List Char) : Nat → Nat → Nat → Nat → Nat → Nat → Bool → Bool → Bool →
    Option FieOut
  | _, 0, _ist, icnt, ps, pe, _, hitM, hitE => some ⟨ps, pe, icnt, hitM, hitE⟩
  | p, fuel + 1, ist, icnt, ps, pe, found, hitM, hitE =>
    match substrE rt p 2 with
    | none => none
    | some w =>
      if w = ['|', '_'] then
        match substrE rt (p + 3) insId.length with
        | none => none
        | some m =>
          if m = insId then
            fieGo rt insId (p + 1) fuel (ist + 1) (icnt + 1) (p + 2) pe true true hitE
          else
            fieGo rt insId (p + 1) fuel (ist + 1) (if found then icnt + 1 else icnt)
              ps pe found hitM hitE
      else if w = ['_', '|'] ∧ ist = 0 ∧ found = true then
        some ⟨ps, p, icnt, hitM, true⟩
      else if w = ['_', '|'] ∧ found = true then
        fieGo rt insId (p + 1) fuel (ist - 1) icnt ps pe found hitM hitE
      else
        fieGo rt insId (p + 1) fuel ist icnt ps pe found hitM hitE

/-- `IcmpUUID::find_inserter_end(uuid)` (icmp_uuid.cc lines 41-74),
instrumented.  `selfLen` is `size()` — the length of the `IcmpUUID`'s own
string view, over which the loop index runs; `genId` models the
`UUID::generate()` result that is assigned to `ins_id` when the `uuid`
argument is non-empty (when `uuid` is empty, `ins_id` is the empty `uuid`
itself); `rt` is `replacement_text`. -/
def fieRun (selfLen : Nat) (genId uuid rt : List Char) : Option FieOut :=
  let insId := if uuid.length = 0 then uuid else genId
  fieGo rt insId 0 selfLen 0 0 0 0 false false false

/-- `IcmpUUID::find_inserter_end(uuid)`: the pair
`((pos_start, pos_end), inserter_count)` returned by the source. -/
def IcmpUUID.find_inserter_end (selfLen : Nat) (genId uuid rt : List Char) :
    Option ((Nat × Nat) × Nat) :=
  (fieRun selfLen genId uuid rt).map fun o => ((o.pos_start, o.pos_end), o.count)

theorem hexChar_mem (n : Nat) (h : n ≤ 15) : isLowerHexDigit (hexChar n) := by
  interval_cases n <;> decide

theorem hexChar_variant (d2 : Nat) (h8 : 8 ≤ d2) (h11 : d2 ≤ 11) :
    hexChar d2 ∈ ['8', '9', 'a', 'b'] := by
  interval_cases d2 <;> decide

/-- C9: for every sequence of draws of `dis` (values in `[0,15]`) and every
draw of `dis2` (values in `[8,11]`), `UUID::generate` returns a 36-character
string with hyphens at indices 8, 13, 18 and 23, every other character a
lowercase hexadecimal digit, the character at index 14 equal to `'4'` and the
character at index 19 one of `'8'`, `'9'`, `'a'`, `'b'`. -/
theorem uuid_generate_format (g : Nat → Nat) (d2 : Nat)
    (hg : ∀ i, g i ≤ 15) (h8 : 8 ≤ d2) (h11 : d2 ≤ 11) :
    (UUID.generate g d2).length = 36 ∧
    (UUID.generate g d2).getD 8 ' ' = '-' ∧
    (UUID.generate g d2).getD 13 ' ' = '-' ∧
    (UUID.generate g d2).getD 18 ' ' = '-' ∧
    (UUID.generate g d2).getD 23 ' ' = '-' ∧
    (∀ i, i < 36 → i ≠ 8 → i ≠ 13 → i ≠ 18 → i ≠ 23 →
      isLowerHexDigit ((UUID.generate g d2).getD i ' ')) ∧
    (UUID.generate g d2).getD 14 ' ' = '4' ∧
    (UUID.generate g d2).getD 19 ' ' ∈ ['8', '9', 'a', 'b'] := by
  have e : UUID.generate g d2 =
      [hexChar (g 0), hexChar (g 1), hexChar (g 2), hexChar (g 3),
       hexChar (g 4), hexChar (g 5), hexChar (g 6), hexChar (g 7), '-',
       hexChar (g 8), hexChar (g 9), hexChar (g 10), hexChar (g 11), '-', '4',
       hexChar (g 12), hexChar (g 13), hexChar (g 14), '-',
       hexChar d2, hexChar (g 15), hexChar (g 16), hexChar (g 17), '-',
       hexChar (g 18), hexChar (g 19), hexChar (g 20), hexChar (g 21),
       hexChar (g 22), hexChar (g 23), hexChar (g 24), hexChar (g 25),
       hexChar (g 26), hexChar (g 27), hexChar (g 28), hexChar (g 29)] := rfl
  rw [e]
  refine ⟨rfl, rfl, rfl, rfl, rfl, ?_, rfl, hexChar_variant d2 h8 h11⟩
  intro i hi h8i h13i h18i h23i
  interval_cases i <;>
    first
      | omega
      | (show isLowerHexDigit '4'
         decide)
      | exact hexChar_mem _ (hg _)
      | exact hexChar_mem d2 (by omega)

theorem uuid_generate_format_witness :
    (UUID.generate (fun _ => 0) 8).length = 36 ∧
    (UUID.generate (fun _ => 0) 8).getD 8 ' ' = '-' ∧
    (UUID.generate (fun _ => 0) 8).getD 13 ' ' = '-' ∧
    (UUID.generate (fun _ => 0) 8).getD 18 ' ' = '-' ∧
    (UUID.generate (fun _ => 0) 8).getD 23 ' ' = '-' ∧
    (∀ i, i < 36 → i ≠ 8 → i ≠ 13 → i ≠ 18 → i ≠ 23 →
      isLowerHexDigit ((UUID.generate (fun _ => 0) 8).getD i ' ')) ∧
    (UUID.generate (fun _ => 0) 8).getD 14 ' ' = '4' ∧
    (UUID.generate (fun _ => 0) 8).getD 19 ' ' ∈ ['8', '9', 'a', 'b'] :=
  uuid_generate_format (fun _ => 0) 8 (fun _ => Nat.zero_le 15) (by decide) (by decide)

/-- C10: `FlagQueue::pop` is defined exactly under the precondition that the
queue is non-empty: it then returns the element at index 0 and erases it,
decreasing the size by one; on the empty queue the `at(0)` access fails. -/
theorem flag_queue_pop_spec :
    (∀ (q : List Nat) (h : q ≠ []),
      FlagQueue.pop q = some (q.head h, q.tail) ∧ q.tail.length + 1 = q.length) ∧
    FlagQueue.pop ([] : List Nat) = none := by
  constructor
  · intro q h
    match q with
    | x :: xs => exact ⟨rfl, rfl⟩
  · rfl

theorem flag_queue_pop_spec_witness :
    FlagQueue.pop [5, 7] = some (5, [7]) ∧ (1 : Nat) + 1 = 2 :=
  flag_queue_pop_spec.1 [5, 7] (by decide)

/-- C1 (code bug): the engine step exits the terminal `FilledGapInText`
state.  A gap whose status is `FilledGapInText` is moved back to `New` by one
call of `visit()`, because `visit()` unconditionally ends with
`gap_text.visited(this)`, which assigns `Status::New`. -/
theorem visit_leaves_filled_terminal :
    (IcmpProperties.visit
        { guess := "world", gapType := IcmpGapType.Single, parentTextPresent := true,
          textFound := true, textId := "T", gapId := "G", replacement := "world" }
        { status := Status.FilledGapInText, gapText := "world",
          docText := "Hello world!", gaps := ["G"] }).map EngineState.status
      = some Status.New := by
  decide

/-- C2 counterexample: with an empty provider candidate, the gap does not
transition to the specification's `Failed` state — under the status
correspondence the step ends in `Created`, and the code defines no failure
status at all. -/
theorem empty_guess_not_failed :
    (IcmpProperties.visit
        { guess := "", gapType := IcmpGapType.Single, parentTextPresent := true,
          textFound := true, textId := "T", gapId := "A", replacement := "" }
        { status := Status.New, gapText := "", docText := "Hello |_A_|!",
          gaps := ["A"] }).map (fun s => statusToSpec s.status)
      ≠ some SpecStatus.Failed := by
  decide

/-- C2 amended: with an empty provider candidate, the `New` branch of
`visit()` takes no action — the gap stays in `New` (the code has no `Failed`
state and no `GuessUnavailable` error value) and the document text, the gap
text and the open-gap queue are unchanged. -/
theorem empty_guess_state_and_text_unchanged :
    IcmpProperties.visit
        { guess := "", gapType := IcmpGapType.Single, parentTextPresent := true,
          textFound := true, textId := "T", gapId := "A", replacement := "" }
        { status := Status.New, gapText := "", docText := "Hello |_A_|!",
          gaps := ["A"] }
      = some { status := Status.New, gapText := "", docText := "Hello |_A_|!",
               gaps := ["A"] } := by
  decide

/-- C3 (code bug): states are revisited without any caller-requested reset.
A gap in `Guessed` — a state that was entered by leaving `New` — is returned
to `New` by one call of `visit()`, because the trailing
`gap_text.visited(this)` call assigns `Status::New` on every visit. -/
theorem visit_revisits_new_from_guessed :
    (IcmpProperties.visit
        { guess := "world", gapType := IcmpGapType.Single, parentTextPresent := true,
          textFound := true, textId := "T", gapId := "G", replacement := "world" }
        { status := Status.Guessed, gapText := "world", docText := "Hello G!",
          gaps := ["G"] }).map EngineState.status
      = some Status.New := by
  decide

/-- C4 counterexample: the second `fill_gap` call for the same gap id also
reports success — the claim that the second call does not succeed is false.
(`UnknownGap` exists nowhere in the code; `fill_gap` returns `bool`.) -/
theorem second_commit_reports_success :
    (IcmpText.fill_gap "Hello A!" "A" "world").snd = true ∧
    (IcmpText.fill_gap (IcmpText.fill_gap "Hello A!" "A" "world").fst "A" "world").snd
      = true := by
  decide

/-- C4 amended: for every document text, gap id and replacement text, the
first `fill_gap` call reports success, and a second call for the same gap id
also reports success — `fill_gap` returns `true` unconditionally, and the
code defines no `UnknownGap` error. -/
theorem fill_gap_double_call_behavior :
    ∀ (docText gapid gaptext : String),
      (IcmpText.fill_gap docText gapid gaptext).snd = true ∧
      (IcmpText.fill_gap (IcmpText.fill_gap docText gapid gaptext).fst gapid gaptext).snd
        = true := by
  intro docText gapid gaptext
  exact ⟨rfl, rfl⟩

/-- C5 counterexample: committing gap A (id `"A"`, marker `"|_A_|"`) with
candidate `"world"` on the document `"Hello |_A_|!"` does not produce
`"Hello world!"`. -/
theorem commit_result_not_hello_world :
    (IcmpText.fill_gap "Hello |_A_|!" "A" "world").fst ≠ "Hello world!" := by
  decide

/-- C5 amended: committing gap A with candidate `"world"` produces
`"Hello |_world_|!"` — `fill_gap` replaces only the occurrence of the gap id
string, leaving the `|_` and `_|` delimiters in the text. -/
theorem commit_replaces_only_gap_id :
    IcmpText.fill_gap "Hello |_A_|!" "A" "world" = ("Hello |_world_|!", true) := by
  decide

/-- C6 (code bug): a successful commit does not remove the gap id from the
open-gap queue.  `fill_gap` rewrites only the text, and the subsequent
`FilledGapInText` step calls `erase_gapid` with the document's `text_id`
(here `"T"`) instead of the gap id, so the gap id `"G"` is still open
afterwards. -/
theorem commit_keeps_gap_open :
    IcmpText.fill_gap "Hello G!" "G" "world" = ("Hello world!", true) ∧
    (IcmpProperties.visit
        { guess := "world", gapType := IcmpGapType.Single, parentTextPresent := true,
          textFound := true, textId := "T", gapId := "G", replacement := "world" }
        { status := Status.FilledGapInText, gapText := "world",
          docText := "Hello world!", gaps := ["G"] }).map EngineState.gaps
      = some ["G"] := by
  decide

/-- C7 counterexample: `merge_into` with a gap id absent from
`replacement_text` reports success (`true`) while changing nothing — the
failure is silently swallowed, not returned as an error. -/
theorem merge_into_success_without_marker :
    (IcmpUUID.merge_into ⟨"Hello", ""⟩ "X" "y").snd = true ∧
    (IcmpUUID.merge_into ⟨"Hello", ""⟩ "X" "y").fst.replacement_text = "Hello" := by
  decide

/-- C7 amended: `IcmpUUID::merge_into` and `IcmpText::fill_gap` report
success unconditionally — they return `true` on every input, also when the
expected marker is absent, and never return an error value. -/
theorem merge_and_fill_always_report_success :
    ∀ (st : IcmpUUIDState) (g t d gi r : String),
      (IcmpUUID.merge_into st g t).snd = true ∧
      (IcmpText.fill_gap d gi r).snd = true := by
  intro st g t d gi r
  exact ⟨rfl, rfl⟩

/-- C8 counterexample: the two branches of `find_inserter_end` that set
`inserter_start`/`inserter_count`/`pos_start` and `pos_end` are both reached.
With an empty `uuid` argument (so `ins_id` is empty and the match at offset
`p+3` holds trivially) and `replacement_text` `"|_x_|y_|"`, the uuid-match
branch fires at `p = 0` and the end-position branch fires at `p = 6`. -/
theorem inserter_branches_reached :
    (fieRun 36 [] [] ("|_x_|y_|".toList)).map (fun o => (o.hitMatch, o.hitEnd))
      = some (true, true) := by
  decide

/-- C8 amended: the initializing branches of `find_inserter_end` are jointly
reachable.  With an empty `uuid` argument and `replacement_text`
`"|_x_|y_|"` (the `IcmpUUID`'s own view being a generated 36-character uuid),
the scan enters the uuid-match branch at `p = 0`, the end-position branch at
`p = 6`, and returns `((2, 6), 1)`. -/
theorem find_inserter_end_concrete_run :
    IcmpUUID.find_inserter_end 36 [] [] ("|_x_|y_|".toList) = some ((2, 6), 1) ∧
    fieRun 36 [] [] ("|_x_|y_|".toList) = some ⟨2, 6, 1, true, true⟩ := by
  decide
